import Mathlib

/-!
Verification development for the Question resource handler
(`src/server/api/question/question.controller.js`).

The controller is embedded shallowly: the document store is a list of
`Question` documents, each HTTP handler is a pure function from the store
and the request data to an `HResult` (the new store, the response written
so far, and the number of store write calls issued).  The external
collaborators (the Mongo-style document store and the HTTP response
object) are not part of the repository's source; their semantics are
modelled from the specification's description of them, and each such
definition carries a doc comment saying so.

User identities are modelled as natural numbers.  The source sometimes
stores `req.user` (a full user object) and sometimes `req.user.id` (its
string identifier) into an owner field; the store casts both to the same
reference value, so both are modelled as the same `Nat`, and
`_id.toString()` comparisons become `Nat` equality.
-/

/-- A comment embedded in a question or in an answer: identifier, owning
user and content (spec section 3). -/
structure Comment where
  _id : Nat
  user : Nat
  content : String
deriving Repr, DecidableEq

/-- An answer embedded in a question: identifier, owning user, content and
its own ordered list of comments (spec section 3). -/
structure Answer where
  _id : Nat
  user : Nat
  content : String
  comments : List Comment
deriving Repr, DecidableEq

/-- A question document: store-assigned identifier, owning user, creation
timestamp, content, ordered answers and ordered comments (spec section 3). -/
structure Question where
  _id : Nat
  user : Nat
  createdAt : Nat
  content : String
  answers : List Answer
  comments : List Comment
deriving Repr, DecidableEq

/-- A response body: the number bodies produced by `res.send(403)` /
`res.send(404)`, a single question document, a list of question documents,
or a raw store error. -/
inductive Body where
  | num (n : Nat)
  | question (q : Question)
  | questions (qs : List Question)
  | err
deriving Repr, DecidableEq

/-- Modelled from the spec: the HTTP response object supplied by the web
framework (an external collaborator, not part of src/).  `status` starts at
the framework default 200; a `send` or `json` call writes the body and
completes the response; once completed, further `status`/`send`/`json`
calls have no visible effect (the response is already on the wire). -/
structure Response where
  status : Nat := 200
  body : Option Body := none
  ended : Bool := false
deriving Repr, DecidableEq

/-- The fresh response object handed to a handler. -/
def rEmpty : Response := {}

/-- `res.status(n)`: set the status code (no effect after completion). -/
def resStatus (res : Response) (n : Nat) : Response :=
  if res.ended then res else { res with status := n }

/-- Modelled from the spec: `res.send(v)`.  Section 6 of the spec notes that
the source's `res.send(403)`-style calls are malformed and fail to set the
intended status: `send` writes its argument as the body, leaves the status
as it is, and completes the response. -/
def resSend (res : Response) (v : Body) : Response :=
  if res.ended then res else { res with body := some v, ended := true }

/-- `res.json(v)`: write `v` as the body and complete the response. -/
def resJson (res : Response) (v : Body) : Response :=
  if res.ended then res else { res with body := some v, ended := true }

/-- `res.end()`: complete the response with whatever has been set. -/
def resEnd (res : Response) : Response :=
  { res with ended := true }

/-- Result of running one handler: the store after the request, the
response written, and the number of store *write* calls issued (document
insert, update, save or remove; reads are not counted). -/
structure HResult where
  store : List Question
  res : Response
  writes : Nat
deriving Repr, DecidableEq

/-- Apply `f` to the first element satisfying `p`, leaving the rest
unchanged (the Mongo positional `$` update on an embedded array). -/
def mapFirst (p : α → Bool) (f : α → α) : List α → List α
  | [] => []
  | x :: xs => if p x then f x :: xs else x :: mapFirst p f xs

/-- Remove the first element satisfying `p` (a document `remove`). -/
def removeFirst (p : α → Bool) : List α → List α
  | [] => []
  | x :: xs => if p x then xs else x :: removeFirst p xs

/-- Apply `f` to the element at positional index `i` (the dotted
`answers.i` field path used by `updateAnswerComment`). -/
def modifyIdx (f : α → α) : Nat → List α → List α
  | _, [] => []
  | 0, x :: xs => f x :: xs
  | n + 1, x :: xs => x :: modifyIdx f n xs

/-- Modelled from the spec: a Mongo-style single-document update against
the questions collection.  It rewrites the first document satisfying the
match predicate `p` with `f` and reports the count the controller's
callbacks receive as `num`: `1` when a document matched, `0` otherwise
(per-call-site predicates fold in the element conditions the spec counts,
see the handlers below). -/
def updateFirst (p : Question → Bool) (f : Question → Question) :
    List Question → Nat × List Question
  | [] => (0, [])
  | q :: rest =>
    if p q then (1, f q :: rest)
    else
      let r := updateFirst p f rest
      (r.1, q :: r.2)

/-- `Question.findByIdAsync(id)`: the first document with the given id. -/
def findById (store : List Question) (id : Nat) : Option Question :=
  store.find? (fun q => q._id == id)

/-- The descending-creation-time order used by the listing's sort. -/
def newerEq (a b : Question) : Prop := b.createdAt ≤ a.createdAt

instance : DecidableRel newerEq := fun a b => Nat.decLe b.createdAt a.createdAt

instance : IsTotal Question newerEq := ⟨fun a b => Nat.le_total b.createdAt a.createdAt⟩

instance : IsTrans Question newerEq := ⟨fun _ _ _ hab hbc => Nat.le_trans hbc hab⟩

/-- Modelled from the spec: `Question.find().sort(createdAt: -1)`, the
store's sort of the collection by creation time, newest first. -/
def sortByCreatedAtDesc (store : List Question) : List Question :=
  List.insertionSort newerEq store

/-- `respondWithResult(res, statusCode)`: when the entity is present, set
the status (the source defaults it to 200) and send it as JSON. -/
def respondWithResult (res : Response) (statusCode : Nat) (entity : Option Body) :
    Response :=
  match entity with
  | some e => resJson (resStatus res statusCode) e
  | none => res

/-- `handleEntityNotFound(res)`: on a missing entity, answer an empty 404
and drop to `null` for the rest of the chain. -/
def handleEntityNotFound (res : Response) (entity : Option Question) :
    Option Question × Response :=
  match entity with
  | none => (none, resEnd (resStatus res 404))
  | some e => (some e, res)

/-- `handleUnauthorized(req, res)`: pass `null` through; when the entity's
owner differs from the acting user, issue `res.send(403).end()` and drop to
`null`. -/
def handleUnauthorized (actingUser : Nat) (res : Response) (entity : Option Question) :
    Option Question × Response :=
  match entity with
  | none => (none, res)
  | some e =>
    if e.user ≠ actingUser then (none, resEnd (resSend res (Body.num 403)))
    else (some e, res)

/-- `handleError(res, statusCode)`: `res.status(statusCode).send(err)`. -/
def handleError (res : Response) (statusCode : Nat) : Response :=
  resSend (resStatus res statusCode) Body.err

/-- The partial payload of a question update (`req.body` on PUT).  The
lodash `_.merge(entity, updates)` of `saveUpdates` overwrites each field
the payload provides and retains the rest. -/
structure UpdateBody where
  _id : Option Nat := none
  user : Option Nat := none
  createdAt : Option Nat := none
  content : Option String := none
deriving Repr, DecidableEq

/-- `_.merge(entity, updates)` restricted to the question's record shape:
each provided payload field overwrites the entity's field, absent fields
are retained. -/
def mergeQuestion (entity : Question) (updates : UpdateBody) : Question :=
  { entity with
    _id := updates._id.getD entity._id
    user := updates.user.getD entity.user
    createdAt := updates.createdAt.getD entity.createdAt
    content := updates.content.getD entity.content }

/-- The payload of a question creation (`req.body` on POST): the client may
or may not send a `user` field; the handler overwrites it. -/
structure CreateBody where
  user : Option Nat := none
  content : String := ""
deriving Repr, DecidableEq

/-- The payload of a nested answer or comment creation. -/
structure SubBody where
  user : Option Nat := none
  content : String := ""
deriving Repr, DecidableEq

/-- `index`: `Question.find().sort(createdAt: -1).limit(20)` then
`respondWithResult(res)` (an array, even empty, is a truthy entity). -/
def index (store : List Question) : Response :=
  respondWithResult rEmpty 200 (some (Body.questions ((sortByCreatedAtDesc store).take 20)))

/-- `show`: fetch by id, 404 when absent, else 200 with the document.
(Named `show'` because `show` is reserved in Lean.)  The response object is
threaded so the nested handlers can delegate to it (`exports.show(req, res)`). -/
def show' (store : List Question) (id : Nat) (res : Response) : Response :=
  match handleEntityNotFound res (findById store id) with
  | (some e, res1) => respondWithResult res1 200 (some (Body.question e))
  | (none, res1) => respondWithResult res1 200 none

/-- `create`: `req.body.user = req.user`, insert the document (the store
assigns `freshId` and the creation timestamp `now`), respond 201 with it. -/
def create (store : List Question) (actingUser freshId now : Nat) (body : CreateBody) :
    HResult :=
  let body1 := { body with user := some actingUser }
  let doc : Question :=
    { _id := freshId, user := body1.user.getD 0, createdAt := now,
      content := body1.content, answers := [], comments := [] }
  { store := store ++ [doc],
    res := respondWithResult rEmpty 201 (some (Body.question doc)),
    writes := 1 }

/-- `update`: strip `req.body._id`, fetch by id, 404 when absent, 403 when
not the owner, else `_.merge` the payload into the document and save it.
On the `null` paths the chain's `saveUpdates` throws on `null` and the
final catch attempts `res.status(500).send(err)` against the already
completed response (no visible effect, no save issued). -/
def update (store : List Question) (qid actingUser : Nat) (body : UpdateBody) :
    HResult :=
  let body1 := if body._id.isSome then { body with _id := none } else body
  let (ent1, res1) := handleEntityNotFound rEmpty (findById store qid)
  let (ent2, res2) := handleUnauthorized actingUser res1 ent1
  match ent2 with
  | none => { store := store, res := handleError res2 500, writes := 0 }
  | some e =>
    let updated := mergeQuestion e body1
    let saved := updateFirst (fun x => x._id == updated._id) (fun _ => updated) store
    { store := saved.2,
      res := respondWithResult res2 200 (some (Body.question updated)),
      writes := 1 }

/-- `destroy`: fetch by id, 404 when absent, 403 when not the owner, else
remove the document and answer an empty 204 (`removeEntity`). -/
def destroy (store : List Question) (qid actingUser : Nat) : HResult :=
  let (ent1, res1) := handleEntityNotFound rEmpty (findById store qid)
  let (ent2, res2) := handleUnauthorized actingUser res1 ent1
  match ent2 with
  | none => { store := store, res := res2, writes := 0 }
  | some e =>
    { store := removeFirst (fun x => x._id == e._id) store,
      res := resEnd (resStatus res2 204), writes := 1 }

/-- `createAnswer`: `req.body.user = req.user`, then
`update(filter _id, push answers)`; `num == 0` answers `res.send(404).end()`,
otherwise the full question is re-fetched via `exports.show`. -/
def createAnswer (store : List Question) (qid actingUser freshId : Nat) (body : SubBody) :
    HResult :=
  let a : Answer := { _id := freshId, user := actingUser, content := body.content,
                      comments := [] }
  let r := updateFirst (fun q => q._id == qid)
    (fun q => { q with answers := q.answers ++ [a] }) store
  if r.1 == 0 then
    { store := r.2, res := resEnd (resSend rEmpty (Body.num 404)), writes := 1 }
  else
    { store := r.2, res := show' r.2 qid rEmpty, writes := 1 }

/-- `updateAnswer`: `update(filter _id and answers._id, set answers.$.content
and answers.$.user = req.user.id)` — the first answer with the given id gets
its content overwritten and its owner reassigned to the acting user, with no
check against the original owner. -/
def updateAnswer (store : List Question) (qid aid actingUser : Nat) (content : String) :
    HResult :=
  let r := updateFirst
    (fun q => q._id == qid && q.answers.any (fun a => a._id == aid))
    (fun q => { q with answers := mapFirst (fun a => a._id == aid) (fun a => { a with content := content, user := actingUser }) q.answers })
    store
  if r.1 == 0 then
    { store := r.2, res := resEnd (resSend rEmpty (Body.num 404)), writes := 1 }
  else
    { store := r.2, res := show' r.2 qid rEmpty, writes := 1 }

/-- `destroyAnswer`: `update(filter _id, pull answers with _id = answerId and
user = req.user._id)`.  Modelled from the spec: the count the callback sees
is 0 exactly when nothing was removed — spec section 4.1 states
"matched-count 0 → 404 (including not owner, indistinguishable)" — so the
pull's element conditions participate in the match predicate. -/
def destroyAnswer (store : List Question) (qid aid actingUser : Nat) : HResult :=
  let r := updateFirst
    (fun q => q._id == qid && q.answers.any (fun a => a._id == aid && a.user == actingUser))
    (fun q => { q with answers := q.answers.filter (fun a => !(a._id == aid && a.user == actingUser)) })
    store
  if r.1 == 0 then
    { store := r.2, res := resEnd (resSend rEmpty (Body.num 404)), writes := 1 }
  else
    { store := r.2, res := show' r.2 qid rEmpty, writes := 1 }

/-- `createComment`: `req.body.user = req.user.id`, then
`update(filter _id, push comments)`. -/
def createComment (store : List Question) (qid actingUser freshId : Nat) (body : SubBody) :
    HResult :=
  let c : Comment := { _id := freshId, user := actingUser, content := body.content }
  let r := updateFirst (fun q => q._id == qid)
    (fun q => { q with comments := q.comments ++ [c] }) store
  if r.1 == 0 then
    { store := r.2, res := resEnd (resSend rEmpty (Body.num 404)), writes := 1 }
  else
    { store := r.2, res := show' r.2 qid rEmpty, writes := 1 }

/-- `destroyComment`: `update(filter _id, pull comments with _id = commentId
and user = req.user._id)`.  Count modelled from the spec as for
`destroyAnswer`. -/
def destroyComment (store : List Question) (qid cid actingUser : Nat) : HResult :=
  let r := updateFirst
    (fun q => q._id == qid && q.comments.any (fun c => c._id == cid && c.user == actingUser))
    (fun q => { q with comments := q.comments.filter (fun c => !(c._id == cid && c.user == actingUser)) })
    store
  if r.1 == 0 then
    { store := r.2, res := resEnd (resSend rEmpty (Body.num 404)), writes := 1 }
  else
    { store := r.2, res := show' r.2 qid rEmpty, writes := 1 }

/-- `updateComment`: `update(filter _id and comments._id, set
comments.$.content and comments.$.user = req.user.id)` — no ownership
check against the original owner. -/
def updateComment (store : List Question) (qid cid actingUser : Nat) (content : String) :
    HResult :=
  let r := updateFirst
    (fun q => q._id == qid && q.comments.any (fun c => c._id == cid))
    (fun q => { q with comments := mapFirst (fun c => c._id == cid) (fun c => { c with content := content, user := actingUser }) q.comments })
    store
  if r.1 == 0 then
    { store := r.2, res := resEnd (resSend rEmpty (Body.num 404)), writes := 1 }
  else
    { store := r.2, res := show' r.2 qid rEmpty, writes := 1 }

/-- `createAnswerComment`: `req.body.user = req.user.id`, then
`update(filter _id and answers._id, push answers.$.comments)` — the comment
is appended to the first answer with the given id. -/
def createAnswerComment (store : List Question) (qid aid actingUser freshId : Nat)
    (body : SubBody) : HResult :=
  let c : Comment := { _id := freshId, user := actingUser, content := body.content }
  let r := updateFirst
    (fun q => q._id == qid && q.answers.any (fun a => a._id == aid))
    (fun q => { q with answers := mapFirst (fun a => a._id == aid) (fun a => { a with comments := a.comments ++ [c] }) q.answers })
    store
  if r.1 == 0 then
    { store := r.2, res := resEnd (resSend rEmpty (Body.num 404)), writes := 1 }
  else
    { store := r.2, res := show' r.2 qid rEmpty, writes := 1 }

/-- `destroyAnswerComment`: `update(filter _id and answers._id, pull
answers.$.comments with _id = commentId and user = req.user._id)`: the pull
targets the first answer with the given id.  Count modelled from the spec
as for `destroyAnswer`. -/
def destroyAnswerComment (store : List Question) (qid aid cid actingUser : Nat) :
    HResult :=
  let r := updateFirst
    (fun q => q._id == qid && q.answers.any (fun a => a._id == aid &&
      a.comments.any (fun c => c._id == cid && c.user == actingUser)))
    (fun q => { q with answers := mapFirst (fun a => a._id == aid) (fun a => { a with comments := a.comments.filter (fun c => !(c._id == cid && c.user == actingUser)) }) q.answers })
    store
  if r.1 == 0 then
    { store := r.2, res := resEnd (resSend rEmpty (Body.num 404)), writes := 1 }
  else
    { store := r.2, res := show' r.2 qid rEmpty, writes := 1 }

/-- The query conditions built by `updateAnswerComment` for positional
index `i`: `_id`, `answers.i.comments._id` and `answers.i.comments.user`.
Modelled from the spec: the spec describes the comment list as "filtered
further by comment id and owner = acting user", i.e. both conditions hold
of the same comment element. -/
def uacConditions (qid cid actingUser i : Nat) (q : Question) : Bool :=
  q._id == qid &&
    (match q.answers[i]? with
     | some a => a.comments.any (fun c => c._id == cid && c.user == actingUser)
     | none => false)

/-- The update document built by `updateAnswerComment` for positional index
`i`: set `answers.i.comments.$.content`, the positional `$` addressing the
first comment matched by the query's comment conditions. -/
def uacDoc (cid actingUser i : Nat) (content : String) (q : Question) : Question :=
  { q with answers := modifyIdx (fun a => { a with comments := mapFirst (fun c => c._id == cid && c.user == actingUser) (fun c => { c with content := content }) a.comments }) i q.answers }

/-- The `for` loop of `updateAnswerComment`: scan the fetched question's
answers; at every index whose id matches the requested answer id, issue the
positional update and (in its callback) answer 404 on `num == 0` or
re-fetch via `exports.show`.  The asynchronous callbacks are modelled in
issue order; a response already completed is unaffected by later sends. -/
def uacLoop (qid aid cid actingUser : Nat) (content : String) :
    List Answer → Nat → HResult → HResult × Bool
  | [], _, st => (st, false)
  | a :: rest, i, st =>
    if a._id == aid then
      let r := updateFirst (uacConditions qid cid actingUser i)
        (uacDoc cid actingUser i content) st.store
      let res1 := if r.1 == 0 then resEnd (resSend st.res (Body.num 404))
                  else show' r.2 qid st.res
      let st1 := uacLoop qid aid cid actingUser content rest (i + 1)
        { store := r.2, res := res1, writes := st.writes + 1 }
      (st1.1, true)
    else
      uacLoop qid aid cid actingUser content rest (i + 1) st

/-- `updateAnswerComment`: `Question.find(filter _id)`; an empty result
answers `res.send(404).end()`; otherwise scan `questions[0].answers` for the
answer id, issuing the positional conditional update at each match, and
when no index matched answer `res.send(404).end()` without issuing any
update. -/
def updateAnswerComment (store : List Question) (qid aid cid actingUser : Nat)
    (content : String) : HResult :=
  match store.filter (fun q => q._id == qid) with
  | [] => { store := store, res := resEnd (resSend rEmpty (Body.num 404)), writes := 0 }
  | question :: _ =>
    let st := uacLoop qid aid cid actingUser content question.answers 0
      { store := store, res := rEmpty, writes := 0 }
    if !st.2 then { st.1 with res := resEnd (resSend st.1.res (Body.num 404)) }
    else st.1

/-! ### First-match decomposition lemmas for the list helpers -/

/-- `find?` returns the distinguished element when nothing before it
matches. -/
theorem find?_middle {α} {p : α → Bool} {q : α} :
    ∀ (l1 l2 : List α), (∀ x ∈ l1, p x = false) → p q = true →
      List.find? p (l1 ++ q :: l2) = some q
  | [], l2, _, hq => by simp [List.find?_cons, hq]
  | x :: xs, l2, h1, hq => by
    have hx : p x = false := h1 x (List.mem_cons_self x xs)
    simpa [List.find?_cons, hx] using
      find?_middle xs l2 (fun y hy => h1 y (List.mem_cons_of_mem x hy)) hq

/-- `updateFirst` reports no match when no element matches. -/
theorem updateFirst_none {p : Question → Bool} {f : Question → Question} :
    ∀ l, (∀ x ∈ l, p x = false) → updateFirst p f l = (0, l)
  | [], _ => rfl
  | x :: xs, h => by
    have hx : p x = false := h x (List.mem_cons_self x xs)
    simp [updateFirst, hx,
      updateFirst_none xs (fun y hy => h y (List.mem_cons_of_mem x hy))]

/-- `updateFirst` rewrites exactly the first matching document. -/
theorem updateFirst_middle {p : Question → Bool} {f : Question → Question} {q : Question} :
    ∀ (l1 l2 : List Question), (∀ x ∈ l1, p x = false) → p q = true →
      updateFirst p f (l1 ++ q :: l2) = (1, l1 ++ f q :: l2)
  | [], l2, _, hq => by simp [updateFirst, hq]
  | x :: xs, l2, h1, hq => by
    have hx : p x = false := h1 x (List.mem_cons_self x xs)
    simp [updateFirst, hx,
      updateFirst_middle xs l2 (fun y hy => h1 y (List.mem_cons_of_mem x hy)) hq]

/-- `mapFirst` is the identity when no element matches. -/
theorem mapFirst_none {α} {p : α → Bool} {f : α → α} :
    ∀ l, (∀ x ∈ l, p x = false) → mapFirst p f l = l
  | [], _ => rfl
  | x :: xs, h => by
    have hx : p x = false := h x (List.mem_cons_self x xs)
    simp [mapFirst, hx,
      mapFirst_none xs (fun y hy => h y (List.mem_cons_of_mem x hy))]

/-- `mapFirst` rewrites exactly the first matching element. -/
theorem mapFirst_middle {α} {p : α → Bool} {f : α → α} {q : α} :
    ∀ (l1 l2 : List α), (∀ x ∈ l1, p x = false) → p q = true →
      mapFirst p f (l1 ++ q :: l2) = l1 ++ f q :: l2
  | [], l2, _, hq => by simp [mapFirst, hq]
  | x :: xs, l2, h1, hq => by
    have hx : p x = false := h1 x (List.mem_cons_self x xs)
    simp [mapFirst, hx,
      mapFirst_middle xs l2 (fun y hy => h1 y (List.mem_cons_of_mem x hy)) hq]

/-- `removeFirst` drops exactly the first matching element. -/
theorem removeFirst_middle {α} {p : α → Bool} {q : α} :
    ∀ (l1 l2 : List α), (∀ x ∈ l1, p x = false) → p q = true →
      removeFirst p (l1 ++ q :: l2) = l1 ++ l2
  | [], l2, _, hq => by simp [removeFirst, hq]
  | x :: xs, l2, h1, hq => by
    have hx : p x = false := h1 x (List.mem_cons_self x xs)
    simp [removeFirst, hx,
      removeFirst_middle xs l2 (fun y hy => h1 y (List.mem_cons_of_mem x hy)) hq]

/-- `filter` drops everything when no element matches. -/
theorem filter_none {α} {p : α → Bool} :
    ∀ l : List α, (∀ x ∈ l, p x = false) → l.filter p = []
  | [], _ => rfl
  | x :: xs, h => by
    have hx : p x = false := h x (List.mem_cons_self x xs)
    simp [List.filter_cons, hx,
      filter_none xs (fun y hy => h y (List.mem_cons_of_mem x hy))]

/-- `filter` keeps everything when every element matches. -/
theorem filter_all {α} {p : α → Bool} :
    ∀ l : List α, (∀ x ∈ l, p x = true) → l.filter p = l
  | [], _ => rfl
  | x :: xs, h => by
    have hx : p x = true := h x (List.mem_cons_self x xs)
    simp [List.filter_cons, hx,
      filter_all xs (fun y hy => h y (List.mem_cons_of_mem x hy))]

/-- `filter` on a first-match decomposition. -/
theorem filter_middle {α} {p : α → Bool} {q : α} :
    ∀ (l1 l2 : List α), (∀ x ∈ l1, p x = false) → p q = true →
      (l1 ++ q :: l2).filter p = q :: l2.filter p
  | [], l2, _, hq => by simp [List.filter_cons, hq]
  | x :: xs, l2, h1, hq => by
    have hx : p x = false := h1 x (List.mem_cons_self x xs)
    simp [List.filter_cons, hx,
      filter_middle xs l2 (fun y hy => h1 y (List.mem_cons_of_mem x hy)) hq]

/-- `modifyIdx` at the index of the distinguished element. -/
theorem modifyIdx_middle {α} {f : α → α} {a : α} :
    ∀ (l1 l2 : List α), modifyIdx f l1.length (l1 ++ a :: l2) = l1 ++ f a :: l2
  | [], l2 => rfl
  | x :: xs, l2 => by simp [modifyIdx, modifyIdx_middle xs l2]

/-- Positional lookup at the index of the distinguished element. -/
theorem getElem?_middle {α} {a : α} :
    ∀ (l1 l2 : List α), (l1 ++ a :: l2)[l1.length]? = some a
  | [], l2 => by simp
  | x :: xs, l2 => by simpa using getElem?_middle xs l2

/-- `show'` on a store containing the requested id responds 200 with the
first matching document. -/
theorem show'_found {store : List Question} {id : Nat} {e : Question} {res : Response}
    (h : findById store id = some e) :
    show' store id res = resJson (resStatus res 200) (Body.question e) := by
  simp [show', h, handleEntityNotFound, respondWithResult]

/-- `show'` on a store without the requested id answers an empty 404. -/
theorem show'_missing {store : List Question} {id : Nat} {res : Response}
    (h : findById store id = none) :
    show' store id res = resEnd (resStatus res 404) := by
  simp [show', h, handleEntityNotFound, respondWithResult]

/-- `updateFirst` with an id-guarded conjunctive predicate misses every
document whose id differs. -/
theorem updateFirst_noMatch_id {store : List Question} {qid : Nat}
    (h : ∀ x ∈ store, x._id ≠ qid) (g : Question → Bool) (f : Question → Question) :
    updateFirst (fun q => q._id == qid && g q) f store = (0, store) :=
  updateFirst_none store (fun x hx => by simp [h x hx])

/-- `updateFirst` with a bare id predicate misses every document whose id
differs. -/
theorem updateFirst_noMatch_id' {store : List Question} {qid : Nat}
    (h : ∀ x ∈ store, x._id ≠ qid) (f : Question → Question) :
    updateFirst (fun q => q._id == qid) f store = (0, store) :=
  updateFirst_none store (fun x hx => by simp [h x hx])

/-- The `updateAnswerComment` scan does nothing and reports no match when
no answer id matches. -/
theorem uacLoop_none {qid aid cid actingUser : Nat} {content : String} :
    ∀ (answers : List Answer) (i : Nat) (st : HResult),
      (∀ a ∈ answers, a._id ≠ aid) →
      uacLoop qid aid cid actingUser content answers i st = (st, false)
  | [], _, _, _ => rfl
  | a :: rest, i, st, h => by
    have ha : (a._id == aid) = false := by simp [h a (List.mem_cons_self a rest)]
    simp [uacLoop, ha,
      uacLoop_none rest (i + 1) st (fun y hy => h y (List.mem_cons_of_mem a hy))]

/-- A sample question, answer and comment used as concrete inputs. -/
def sampleQ (i u t : Nat) : Question :=
  { _id := i, user := u, createdAt := t, content := "c", answers := [], comments := [] }

/-- A sample answer used as concrete input. -/
def sampleA (i u : Nat) : Answer := { _id := i, user := u, content := "a", comments := [] }

/-- A sample comment used as concrete input. -/
def sampleC (i u : Nat) : Comment := { _id := i, user := u, content := "x" }

/-- C6: for every question creation that succeeds, the response status is
201 and the created document's owning-user field equals the acting user
from the request context, regardless of any user field the client supplied
in the payload. -/
theorem c6_create_sets_owner (store : List Question) (actingUser freshId now : Nat)
    (body : CreateBody) :
    (create store actingUser freshId now body).res.status = 201 ∧
    (∃ doc : Question,
      (create store actingUser freshId now body).res.body = some (Body.question doc) ∧
      doc.user = actingUser ∧
      (create store actingUser freshId now body).store = store ++ [doc]) :=
  ⟨rfl, ⟨_, rfl, rfl, rfl⟩⟩

/-- C1 counterexample: on a store holding question 1 owned by user 1, an
update by acting user 2 leaves the store alone but the response is not an
empty 403 — the source's `res.send(403).end()` leaves the status at the
default 200 and sends 403 as the body. -/
theorem c1_counterexample :
    ¬ ((update [sampleQ 1 1 0] 1 2 {}).res.status = 403 ∧
       (update [sampleQ 1 1 0] 1 2 {}).res.body = none) := by
  decide

/-- C1 (amended): for every question update or delete where the acting
user differs from the stored owner, the store is never mutated and no save
or remove is issued; the response is produced by `res.send(403).end()`,
i.e. body 403 with the default 200 status (not an empty 403). -/
theorem c1_amended_forbidden_no_mutation (store : List Question)
    (qid actingUser : Nat) (q : Question) (body : UpdateBody)
    (hfind : findById store qid = some q) (hown : q.user ≠ actingUser) :
    ((update store qid actingUser body).store = store ∧
     (update store qid actingUser body).writes = 0 ∧
     (update store qid actingUser body).res =
       { status := 200, body := some (Body.num 403), ended := true }) ∧
    ((destroy store qid actingUser).store = store ∧
     (destroy store qid actingUser).writes = 0 ∧
     (destroy store qid actingUser).res =
       { status := 200, body := some (Body.num 403), ended := true }) := by
  constructor
  · simp [update, hfind, handleEntityNotFound, handleUnauthorized, hown,
      handleError, resSend, resStatus, resEnd, rEmpty]
  · simp [destroy, hfind, handleEntityNotFound, handleUnauthorized, hown,
      resSend, resStatus, resEnd, rEmpty]

/-- C1 witness: the amended theorem applied to the concrete store holding
question 1 owned by user 1 and acting user 2. -/
theorem c1_witness :
    (findById [sampleQ 1 1 0] 1 = some (sampleQ 1 1 0) ∧ (sampleQ 1 1 0).user ≠ 2) ∧
    (((update [sampleQ 1 1 0] 1 2 {}).store = [sampleQ 1 1 0] ∧
      (update [sampleQ 1 1 0] 1 2 {}).writes = 0 ∧
      (update [sampleQ 1 1 0] 1 2 {}).res =
        { status := 200, body := some (Body.num 403), ended := true }) ∧
     ((destroy [sampleQ 1 1 0] 1 2).store = [sampleQ 1 1 0] ∧
      (destroy [sampleQ 1 1 0] 1 2).writes = 0 ∧
      (destroy [sampleQ 1 1 0] 1 2).res =
        { status := 200, body := some (Body.num 403), ended := true })) :=
  ⟨⟨by decide, by decide⟩,
    c1_amended_forbidden_no_mutation [sampleQ 1 1 0] 1 2 (sampleQ 1 1 0) {}
      (by decide) (by decide)⟩

/-- C10: for every nested sub-resource operation (answer and comment
create/update/delete), the no-match branch invokes `send(404)` on the
response — producing a response whose body is the value 404 with the
default success status 200 — whereas the top-level handlers produce an
empty response with status 404 via `status(404)` followed by `end`. -/
theorem c10_nested_send404_vs_toplevel_status404 (store : List Question)
    (qid aid cid actingUser freshId : Nat) (content : String) (sub : SubBody)
    (body : UpdateBody)
    (h : ∀ x ∈ store, x._id ≠ qid) :
    ((createAnswer store qid actingUser freshId sub).res =
       { status := 200, body := some (Body.num 404), ended := true } ∧
     (updateAnswer store qid aid actingUser content).res =
       { status := 200, body := some (Body.num 404), ended := true } ∧
     (destroyAnswer store qid aid actingUser).res =
       { status := 200, body := some (Body.num 404), ended := true } ∧
     (createComment store qid actingUser freshId sub).res =
       { status := 200, body := some (Body.num 404), ended := true } ∧
     (updateComment store qid cid actingUser content).res =
       { status := 200, body := some (Body.num 404), ended := true } ∧
     (destroyComment store qid cid actingUser).res =
       { status := 200, body := some (Body.num 404), ended := true } ∧
     (createAnswerComment store qid aid actingUser freshId sub).res =
       { status := 200, body := some (Body.num 404), ended := true } ∧
     (destroyAnswerComment store qid aid cid actingUser).res =
       { status := 200, body := some (Body.num 404), ended := true } ∧
     (updateAnswerComment store qid aid cid actingUser content).res =
       { status := 200, body := some (Body.num 404), ended := true }) ∧
    (show' store qid rEmpty = { status := 404, body := none, ended := true } ∧
     (update store qid actingUser body).res =
       { status := 404, body := none, ended := true } ∧
     (destroy store qid actingUser).res =
       { status := 404, body := none, ended := true }) := by
  have hfind : findById store qid = none := by
    apply List.find?_eq_none.mpr
    intro x hx
    simp [h x hx]
  have hfilter : store.filter (fun q => q._id == qid) = [] :=
    filter_none store (fun x hx => by simp [h x hx])
  refine ⟨⟨?_, ?_, ?_, ?_, ?_, ?_, ?_, ?_, ?_⟩, ?_, ?_, ?_⟩
  · simp [createAnswer, updateFirst_noMatch_id' h, resSend, resEnd, rEmpty]
  · simp [updateAnswer, updateFirst_noMatch_id h, resSend, resEnd, rEmpty]
  · simp [destroyAnswer, updateFirst_noMatch_id h, resSend, resEnd, rEmpty]
  · simp [createComment, updateFirst_noMatch_id' h, resSend, resEnd, rEmpty]
  · simp [updateComment, updateFirst_noMatch_id h, resSend, resEnd, rEmpty]
  · simp [destroyComment, updateFirst_noMatch_id h, resSend, resEnd, rEmpty]
  · simp [createAnswerComment, updateFirst_noMatch_id h, resSend, resEnd, rEmpty]
  · simp [destroyAnswerComment, updateFirst_noMatch_id h, resSend, resEnd, rEmpty]
  · simp [updateAnswerComment, hfilter, resSend, resEnd, rEmpty]
  · simp [show'_missing hfind, resStatus, resEnd, rEmpty]
  · simp [update, hfind, handleEntityNotFound, handleUnauthorized, handleError,
      resSend, resStatus, resEnd, rEmpty]
  · simp [destroy, hfind, handleEntityNotFound, handleUnauthorized,
      resStatus, resEnd, rEmpty]

/-- C10 witness: the theorem applied to the empty store and question id 1. -/
theorem c10_witness :
    (∀ x ∈ ([] : List Question), x._id ≠ 1) ∧
    (((createAnswer [] 1 2 3 {}).res =
       { status := 200, body := some (Body.num 404), ended := true } ∧
     (updateAnswer [] 1 4 2 "w").res =
       { status := 200, body := some (Body.num 404), ended := true } ∧
     (destroyAnswer [] 1 4 2).res =
       { status := 200, body := some (Body.num 404), ended := true } ∧
     (createComment [] 1 2 3 {}).res =
       { status := 200, body := some (Body.num 404), ended := true } ∧
     (updateComment [] 1 5 2 "w").res =
       { status := 200, body := some (Body.num 404), ended := true } ∧
     (destroyComment [] 1 5 2).res =
       { status := 200, body := some (Body.num 404), ended := true } ∧
     (createAnswerComment [] 1 4 2 3 {}).res =
       { status := 200, body := some (Body.num 404), ended := true } ∧
     (destroyAnswerComment [] 1 4 5 2).res =
       { status := 200, body := some (Body.num 404), ended := true } ∧
     (updateAnswerComment [] 1 4 5 2 "w").res =
       { status := 200, body := some (Body.num 404), ended := true }) ∧
    (show' [] 1 rEmpty = { status := 404, body := none, ended := true } ∧
     (update [] 1 2 {}).res = { status := 404, body := none, ended := true } ∧
     (destroy [] 1 2).res = { status := 404, body := none, ended := true })) :=
  ⟨by simp, c10_nested_send404_vs_toplevel_status404 [] 1 4 5 2 3 "w" {} {} (by simp)⟩

/-- `updateFirst` reports no match when no element matches, with the
update document universally quantified. -/
theorem updateFirst_none' {p : Question → Bool} {l : List Question}
    (h : ∀ x ∈ l, p x = false) (f : Question → Question) :
    updateFirst p f l = (0, l) := updateFirst_none l h

/-- C3 counterexample: deleting a comment under answer id 9 of question 1,
whose answer list only holds answer 4, answers 404 — but the handler still
issues its store update call (one write is issued, matching nothing), so
"no store write operation at all" fails on the delete path. -/
theorem c3_counterexample :
    (destroyAnswerComment [{ sampleQ 1 1 0 with answers := [sampleA 4 7] }] 1 9 3 2).res =
      { status := 200, body := some (Body.num 404), ended := true } ∧
    ¬ (destroyAnswerComment [{ sampleQ 1 1 0 with answers := [sampleA 4 7] }] 1 9 3 2).writes = 0 := by
  constructor
  · decide
  · decide

/-- C3 (amended): for update and delete of a comment nested under an
answer, when the given answer id matches no answer of the stored question,
both respond with the `send(404)` body and the store is not mutated; the
update handler issues no store write call at all, while the delete handler
does issue its (no-op) update call. -/
theorem c3_amended_missing_answer_404 (s1 s2 : List Question) (q : Question)
    (qid aid cid actingUser : Nat) (content : String)
    (hs1 : ∀ x ∈ s1, x._id ≠ qid) (hs2 : ∀ x ∈ s2, x._id ≠ qid) (hq : q._id = qid)
    (hans : ∀ a ∈ q.answers, a._id ≠ aid) :
    (updateAnswerComment (s1 ++ q :: s2) qid aid cid actingUser content =
      { store := s1 ++ q :: s2,
        res := { status := 200, body := some (Body.num 404), ended := true },
        writes := 0 }) ∧
    (destroyAnswerComment (s1 ++ q :: s2) qid aid cid actingUser =
      { store := s1 ++ q :: s2,
        res := { status := 200, body := some (Body.num 404), ended := true },
        writes := 1 }) := by
  have h1 : ∀ x ∈ s1, ((fun x => x._id == qid) x) = false := fun x hx => by simp [hs1 x hx]
  have hqb : (q._id == qid) = true := by simp [hq]
  constructor
  · simp [updateAnswerComment, filter_middle s1 s2 h1 hqb,
      uacLoop_none q.answers 0 _ hans, resSend, resEnd, rEmpty]
  · have hall : ∀ x ∈ s1 ++ q :: s2,
        (x._id == qid && x.answers.any (fun a => a._id == aid &&
          a.comments.any (fun c => c._id == cid && c.user == actingUser))) = false := by
      intro x hx
      rcases List.mem_append.mp hx with hx1 | hx2
      · simp [hs1 x hx1]
      · rcases List.mem_cons.mp hx2 with rfl | hx3
        · have hany : x.answers.any (fun a => a._id == aid &&
              a.comments.any (fun c => c._id == cid && c.user == actingUser)) = false := by
            rw [List.any_eq_false]
            intro a ha
            simp [hans a ha]
          simp [hany]
        · simp [hs2 x hx3]
    simp [destroyAnswerComment, updateFirst_none' hall, resSend, resEnd, rEmpty]

/-- C3 witness: the amended theorem applied to a store holding question 1
whose single answer has id 4, with requested answer id 9. -/
theorem c3_witness :
    (({ sampleQ 1 1 0 with answers := [sampleA 4 7] } : Question)._id = 1 ∧
     (∀ a ∈ ({ sampleQ 1 1 0 with answers := [sampleA 4 7] } : Question).answers, a._id ≠ 9)) ∧
    ((updateAnswerComment [{ sampleQ 1 1 0 with answers := [sampleA 4 7] }] 1 9 3 2 "w" =
      { store := [{ sampleQ 1 1 0 with answers := [sampleA 4 7] }],
        res := { status := 200, body := some (Body.num 404), ended := true },
        writes := 0 }) ∧
     (destroyAnswerComment [{ sampleQ 1 1 0 with answers := [sampleA 4 7] }] 1 9 3 2 =
      { store := [{ sampleQ 1 1 0 with answers := [sampleA 4 7] }],
        res := { status := 200, body := some (Body.num 404), ended := true },
        writes := 1 })) :=
  ⟨⟨by decide, by decide⟩,
    c3_amended_missing_answer_404 [] [] { sampleQ 1 1 0 with answers := [sampleA 4 7] }
      1 9 3 2 "w" (by simp) (by simp) (by decide) (by decide)⟩

/-- C2: for every update-answer request and every update-comment-on-question
request whose id filter matches, the handler overwrites the embedded
element's content field and reassigns its owning user to the acting user —
with no hypothesis whatsoever on the element's original owner, i.e. no
ownership check against the original author. -/
theorem c2_update_answer_comment_no_ownership_check
    (s1 s2 : List Question) (q : Question) (qid aid cid actingUser : Nat)
    (content : String) (a1 a2 : List Answer) (a : Answer)
    (c1 c2 : List Comment) (c : Comment)
    (hs1 : ∀ x ∈ s1, x._id ≠ qid) (hq : q._id = qid)
    (hans : q.answers = a1 ++ a :: a2) (ha1 : ∀ x ∈ a1, x._id ≠ aid) (ha : a._id = aid)
    (hcom : q.comments = c1 ++ c :: c2) (hc1 : ∀ x ∈ c1, x._id ≠ cid) (hc : c._id = cid) :
    (updateAnswer (s1 ++ q :: s2) qid aid actingUser content =
      { store := s1 ++
          { q with answers := a1 ++ { a with content := content, user := actingUser } :: a2 } :: s2,
        res := { status := 200,
                 body := some (Body.question
                   { q with answers := a1 ++ { a with content := content, user := actingUser } :: a2 }),
                 ended := true },
        writes := 1 }) ∧
    (updateComment (s1 ++ q :: s2) qid cid actingUser content =
      { store := s1 ++
          { q with comments := c1 ++ { c with content := content, user := actingUser } :: c2 } :: s2,
        res := { status := 200,
                 body := some (Body.question
                   { q with comments := c1 ++ { c with content := content, user := actingUser } :: c2 }),
                 ended := true },
        writes := 1 }) := by
  have hfid : ∀ x ∈ s1, ((fun z : Question => z._id == qid) x) = false :=
    fun x hx => by simp [hs1 x hx]
  constructor
  · have hp1 : ∀ x ∈ s1,
        (x._id == qid && x.answers.any (fun y => y._id == aid)) = false :=
      fun x hx => by simp [hs1 x hx]
    have hpq : (q._id == qid && q.answers.any (fun y => y._id == aid)) = true := by
      simp [hq, hans, ha]
    have emap : mapFirst (fun y => y._id == aid)
        (fun y => { y with content := content, user := actingUser }) q.answers =
        a1 ++ { a with content := content, user := actingUser } :: a2 := by
      rw [hans]
      exact mapFirst_middle a1 a2 (fun x hx => by simp [ha1 x hx]) (by simp [ha])
    have e1 : updateFirst
        (fun z => z._id == qid && z.answers.any (fun y => y._id == aid))
        (fun z => { z with answers := mapFirst (fun y => y._id == aid) (fun y => { y with content := content, user := actingUser }) z.answers })
        (s1 ++ q :: s2) =
        (1, s1 ++
          { q with answers := a1 ++ { a with content := content, user := actingUser } :: a2 } :: s2) := by
      rw [updateFirst_middle s1 s2 hp1 hpq]
      simp [emap]
    have efind : findById (s1 ++
        { q with answers := a1 ++ { a with content := content, user := actingUser } :: a2 } :: s2) qid =
        some { q with answers := a1 ++ { a with content := content, user := actingUser } :: a2 } := by
      simp only [findById]
      exact find?_middle s1 s2 hfid (by simp [hq])
    simp [updateAnswer, e1, show'_found efind, resJson, resStatus, rEmpty]
  · have hp1 : ∀ x ∈ s1,
        (x._id == qid && x.comments.any (fun y => y._id == cid)) = false :=
      fun x hx => by simp [hs1 x hx]
    have hpq : (q._id == qid && q.comments.any (fun y => y._id == cid)) = true := by
      simp [hq, hcom, hc]
    have emap : mapFirst (fun y => y._id == cid)
        (fun y => { y with content := content, user := actingUser }) q.comments =
        c1 ++ { c with content := content, user := actingUser } :: c2 := by
      rw [hcom]
      exact mapFirst_middle c1 c2 (fun x hx => by simp [hc1 x hx]) (by simp [hc])
    have e1 : updateFirst
        (fun z => z._id == qid && z.comments.any (fun y => y._id == cid))
        (fun z => { z with comments := mapFirst (fun y => y._id == cid) (fun y => { y with content := content, user := actingUser }) z.comments })
        (s1 ++ q :: s2) =
        (1, s1 ++
          { q with comments := c1 ++ { c with content := content, user := actingUser } :: c2 } :: s2) := by
      rw [updateFirst_middle s1 s2 hp1 hpq]
      simp [emap]
    have efind : findById (s1 ++
        { q with comments := c1 ++ { c with content := content, user := actingUser } :: c2 } :: s2) qid =
        some { q with comments := c1 ++ { c with content := content, user := actingUser } :: c2 } := by
      simp only [findById]
      exact find?_middle s1 s2 hfid (by simp [hq])
    simp [updateComment, e1, show'_found efind, resJson, resStatus, rEmpty]

/-- C2 witness: the theorem applied to question 1 holding answer 4 (owned
by user 7) and comment 9 (owned by user 8), with acting user 2: both
elements are overwritten and reassigned to user 2. -/
theorem c2_witness :
    ((sampleA 4 7)._id = 4 ∧ (sampleC 9 8)._id = 9 ∧
     ({ sampleQ 1 1 0 with answers := [sampleA 4 7], comments := [sampleC 9 8] } : Question)._id = 1) ∧
    ((updateAnswer [{ sampleQ 1 1 0 with answers := [sampleA 4 7], comments := [sampleC 9 8] }] 1 4 2 "zz" =
      { store := [{ sampleQ 1 1 0 with answers := [{ sampleA 4 7 with content := "zz", user := 2 }], comments := [sampleC 9 8] }],
        res := { status := 200,
                 body := some (Body.question { sampleQ 1 1 0 with answers := [{ sampleA 4 7 with content := "zz", user := 2 }], comments := [sampleC 9 8] }),
                 ended := true },
        writes := 1 }) ∧
     (updateComment [{ sampleQ 1 1 0 with answers := [sampleA 4 7], comments := [sampleC 9 8] }] 1 9 2 "zz" =
      { store := [{ sampleQ 1 1 0 with answers := [sampleA 4 7], comments := [{ sampleC 9 8 with content := "zz", user := 2 }] }],
        res := { status := 200,
                 body := some (Body.question { sampleQ 1 1 0 with answers := [sampleA 4 7], comments := [{ sampleC 9 8 with content := "zz", user := 2 }] }),
                 ended := true },
        writes := 1 })) :=
  ⟨⟨by decide, by decide, by decide⟩,
    c2_update_answer_comment_no_ownership_check [] []
      { sampleQ 1 1 0 with answers := [sampleA 4 7], comments := [sampleC 9 8] }
      1 4 9 2 "zz" [] [] (sampleA 4 7) [] [] (sampleC 9 8)
      (by simp) (by decide) rfl (by simp) (by decide) rfl (by simp) (by decide)⟩

/-- A pair of equality conditions, in the Bool form the store filters use,
is false when the propositional conjunction fails. -/
theorem pair_match_false {i u iv uv : Nat} (h : ¬(i = iv ∧ u = uv)) :
    (i == iv && u == uv) = false := by
  rcases not_and_or.mp h with h1 | h1 <;> simp [h1]

/-- `filter` with a keep-predicate drops exactly the distinguished element
when it alone is rejected. -/
theorem filter_keep_middle {α} {keep : α → Bool} {a : α} (l1 l2 : List α)
    (h1 : ∀ x ∈ l1, keep x = true) (ha : keep a = false) (h2 : ∀ x ∈ l2, keep x = true) :
    (l1 ++ a :: l2).filter keep = l1 ++ l2 := by
  simp [List.filter_append, filter_all l1 h1, List.filter_cons, ha, filter_all l2 h2]

/-- C5: delete-answer and delete-comment-on-question remove only the
embedded element matching both its id and the acting user as owner, and a
count of 0 — covering the not-owner case, indistinguishable from absence —
yields the handler's 404 response. -/
theorem c5_destroy_answer_comment_owner_pull (s1 s2 : List Question) (q : Question)
    (qid aid cid actingUser : Nat)
    (hs1 : ∀ x ∈ s1, x._id ≠ qid) (hs2 : ∀ x ∈ s2, x._id ≠ qid) (hq : q._id = qid) :
    (∀ (a1 a2 : List Answer) (a : Answer),
      q.answers = a1 ++ a :: a2 →
      (∀ x ∈ a1, ¬(x._id = aid ∧ x.user = actingUser)) →
      a._id = aid → a.user = actingUser →
      (∀ x ∈ a2, ¬(x._id = aid ∧ x.user = actingUser)) →
      destroyAnswer (s1 ++ q :: s2) qid aid actingUser =
        { store := s1 ++ { q with answers := a1 ++ a2 } :: s2,
          res := { status := 200, body := some (Body.question { q with answers := a1 ++ a2 }),
                   ended := true },
          writes := 1 }) ∧
    ((∀ x ∈ q.answers, ¬(x._id = aid ∧ x.user = actingUser)) →
      destroyAnswer (s1 ++ q :: s2) qid aid actingUser =
        { store := s1 ++ q :: s2,
          res := { status := 200, body := some (Body.num 404), ended := true },
          writes := 1 }) ∧
    (∀ (c1 c2 : List Comment) (c : Comment),
      q.comments = c1 ++ c :: c2 →
      (∀ x ∈ c1, ¬(x._id = cid ∧ x.user = actingUser)) →
      c._id = cid → c.user = actingUser →
      (∀ x ∈ c2, ¬(x._id = cid ∧ x.user = actingUser)) →
      destroyComment (s1 ++ q :: s2) qid cid actingUser =
        { store := s1 ++ { q with comments := c1 ++ c2 } :: s2,
          res := { status := 200, body := some (Body.question { q with comments := c1 ++ c2 }),
                   ended := true },
          writes := 1 }) ∧
    ((∀ x ∈ q.comments, ¬(x._id = cid ∧ x.user = actingUser)) →
      destroyComment (s1 ++ q :: s2) qid cid actingUser =
        { store := s1 ++ q :: s2,
          res := { status := 200, body := some (Body.num 404), ended := true },
          writes := 1 }) := by
  have hfid : ∀ x ∈ s1, ((fun z : Question => z._id == qid) x) = false :=
    fun x hx => by simp [hs1 x hx]
  refine ⟨?_, ?_, ?_, ?_⟩
  · intro a1 a2 a hans h1 hai hau h2
    have hp1 : ∀ x ∈ s1,
        (x._id == qid && x.answers.any (fun y => y._id == aid && y.user == actingUser)) = false :=
      fun x hx => by simp [hs1 x hx]
    have hpq : (q._id == qid &&
        q.answers.any (fun y => y._id == aid && y.user == actingUser)) = true := by
      simp [hq, hans, hai, hau]
    have efilt : q.answers.filter (fun y => !(y._id == aid && y.user == actingUser)) =
        a1 ++ a2 := by
      rw [hans]
      exact filter_keep_middle a1 a2
        (fun x hx => by simp [pair_match_false (h1 x hx)])
        (by simp [hai, hau])
        (fun x hx => by simp [pair_match_false (h2 x hx)])
    have e1 : updateFirst
        (fun z => z._id == qid && z.answers.any (fun y => y._id == aid && y.user == actingUser))
        (fun z => { z with answers := z.answers.filter (fun y => !(y._id == aid && y.user == actingUser)) })
        (s1 ++ q :: s2) = (1, s1 ++ { q with answers := a1 ++ a2 } :: s2) := by
      rw [updateFirst_middle s1 s2 hp1 hpq]
      simp only [efilt]
    have efind : findById (s1 ++ { q with answers := a1 ++ a2 } :: s2) qid =
        some { q with answers := a1 ++ a2 } := by
      simp only [findById]
      exact find?_middle s1 s2 hfid (by simp [hq])
    simp only [destroyAnswer, e1]
    simp [show'_found efind, resJson, resStatus, rEmpty]
  · intro hnone
    have hall : ∀ x ∈ s1 ++ q :: s2,
        (x._id == qid && x.answers.any (fun y => y._id == aid && y.user == actingUser)) = false := by
      intro x hx
      rcases List.mem_append.mp hx with hx1 | hx2
      · simp [hs1 x hx1]
      · rcases List.mem_cons.mp hx2 with rfl | hx3
        · have hany : x.answers.any (fun y => y._id == aid && y.user == actingUser) = false := by
            rw [List.any_eq_false]
            intro y hy
            simp [pair_match_false (hnone y hy)]
          simp [hany]
        · simp [hs2 x hx3]
    simp [destroyAnswer, updateFirst_none' hall, resSend, resEnd, rEmpty]
  · intro c1 c2 c hcom h1 hci hcu h2
    have hp1 : ∀ x ∈ s1,
        (x._id == qid && x.comments.any (fun y => y._id == cid && y.user == actingUser)) = false :=
      fun x hx => by simp [hs1 x hx]
    have hpq : (q._id == qid &&
        q.comments.any (fun y => y._id == cid && y.user == actingUser)) = true := by
      simp [hq, hcom, hci, hcu]
    have efilt : q.comments.filter (fun y => !(y._id == cid && y.user == actingUser)) =
        c1 ++ c2 := by
      rw [hcom]
      exact filter_keep_middle c1 c2
        (fun x hx => by simp [pair_match_false (h1 x hx)])
        (by simp [hci, hcu])
        (fun x hx => by simp [pair_match_false (h2 x hx)])
    have e1 : updateFirst
        (fun z => z._id == qid && z.comments.any (fun y => y._id == cid && y.user == actingUser))
        (fun z => { z with comments := z.comments.filter (fun y => !(y._id == cid && y.user == actingUser)) })
        (s1 ++ q :: s2) = (1, s1 ++ { q with comments := c1 ++ c2 } :: s2) := by
      rw [updateFirst_middle s1 s2 hp1 hpq]
      simp only [efilt]
    have efind : findById (s1 ++ { q with comments := c1 ++ c2 } :: s2) qid =
        some { q with comments := c1 ++ c2 } := by
      simp only [findById]
      exact find?_middle s1 s2 hfid (by simp [hq])
    simp only [destroyComment, e1]
    simp [show'_found efind, resJson, resStatus, rEmpty]
  · intro hnone
    have hall : ∀ x ∈ s1 ++ q :: s2,
        (x._id == qid && x.comments.any (fun y => y._id == cid && y.user == actingUser)) = false := by
      intro x hx
      rcases List.mem_append.mp hx with hx1 | hx2
      · simp [hs1 x hx1]
      · rcases List.mem_cons.mp hx2 with rfl | hx3
        · have hany : x.comments.any (fun y => y._id == cid && y.user == actingUser) = false := by
            rw [List.any_eq_false]
            intro y hy
            simp [pair_match_false (hnone y hy)]
          simp [hany]
        · simp [hs2 x hx3]
    simp [destroyComment, updateFirst_none' hall, resSend, resEnd, rEmpty]

/-- A question owning an answer and a comment both owned by user 2, used
as a concrete input. -/
def qW5 : Question :=
  { sampleQ 1 1 0 with answers := [sampleA 4 2], comments := [sampleC 9 2] }

/-- C5 witness: deleting answer 4 (comment 9) of question 1 as their owner
(user 2) removes exactly that element; deleting as user 3 leaves the store
unchanged and yields the 404 path. -/
theorem c5_witness :
    (qW5._id = 1 ∧ (sampleA 4 2).user = 2 ∧ (sampleC 9 2).user = 2) ∧
    (destroyAnswer [qW5] 1 4 2 =
      { store := [{ qW5 with answers := [] }],
        res := { status := 200, body := some (Body.question { qW5 with answers := [] }),
                 ended := true },
        writes := 1 }) ∧
    (destroyAnswer [qW5] 1 4 3 =
      { store := [qW5],
        res := { status := 200, body := some (Body.num 404), ended := true },
        writes := 1 }) ∧
    (destroyComment [qW5] 1 9 2 =
      { store := [{ qW5 with comments := [] }],
        res := { status := 200, body := some (Body.question { qW5 with comments := [] }),
                 ended := true },
        writes := 1 }) ∧
    (destroyComment [qW5] 1 9 3 =
      { store := [qW5],
        res := { status := 200, body := some (Body.num 404), ended := true },
        writes := 1 }) :=
  ⟨⟨rfl, rfl, rfl⟩,
    (c5_destroy_answer_comment_owner_pull [] [] qW5 1 4 9 2 (by simp) (by simp) rfl).1
      [] [] (sampleA 4 2) rfl (by simp) rfl rfl (by simp),
    (c5_destroy_answer_comment_owner_pull [] [] qW5 1 4 9 3 (by simp) (by simp) rfl).2.1
      (by decide),
    (c5_destroy_answer_comment_owner_pull [] [] qW5 1 4 9 2 (by simp) (by simp) rfl).2.2.1
      [] [] (sampleC 9 2) rfl (by simp) rfl rfl (by simp),
    (c5_destroy_answer_comment_owner_pull [] [] qW5 1 4 9 3 (by simp) (by simp) rfl).2.2.2
      (by decide)⟩

/-- The save issued by the owner path of `update` replaces the fetched
document with the merged one. -/
theorem save_merged (s1 s2 : List Question) (q : Question) (qid : Nat) (b1 : UpdateBody)
    (hs1 : ∀ x ∈ s1, x._id ≠ qid) (hq : q._id = qid) (hb1 : b1._id = none) :
    updateFirst (fun x => x._id == (mergeQuestion q b1)._id) (fun _ => mergeQuestion q b1)
      (s1 ++ q :: s2) = (1, s1 ++ mergeQuestion q b1 :: s2) := by
  have hmid : (mergeQuestion q b1)._id = qid := by simp [mergeQuestion, hb1, hq]
  exact updateFirst_middle s1 s2 (fun x hx => by simp [hmid, hs1 x hx]) (by simp [hmid, hq])

/-- The owner path of `update`: strip the payload's `_id`, merge the rest
into the stored document, save it and respond 200 with the merged
document. -/
theorem update_owner_success (s1 s2 : List Question) (q : Question)
    (qid actingUser : Nat) (body : UpdateBody)
    (hs1 : ∀ x ∈ s1, x._id ≠ qid) (hq : q._id = qid) (hown : q.user = actingUser) :
    update (s1 ++ q :: s2) qid actingUser body =
      { store := s1 ++ mergeQuestion q { body with _id := none } :: s2,
        res := { status := 200,
                 body := some (Body.question (mergeQuestion q { body with _id := none })),
                 ended := true },
        writes := 1 } := by
  have efind : findById (s1 ++ q :: s2) qid = some q := by
    simp only [findById]
    exact find?_middle s1 s2 (fun x hx => by simp [hs1 x hx]) (by simp [hq])
  have hnot : ¬ q.user ≠ actingUser := by simp [hown]
  cases hb : body._id with
  | none =>
    have hbeq : ({ body with _id := none } : UpdateBody) = body := by
      cases body
      simp_all
    rw [hbeq]
    simp [update, hb, efind, handleEntityNotFound, handleUnauthorized, hnot,
      save_merged s1 s2 q qid body hs1 hq hb, respondWithResult, resJson, resStatus, rEmpty]
  | some v =>
    simp [update, hb, efind, handleEntityNotFound, handleUnauthorized, hnot,
      save_merged s1 s2 q qid { body with _id := none } hs1 hq rfl,
      respondWithResult, resJson, resStatus, rEmpty]

/-- C7: on a question update by its owner, a client-supplied identifier in
the payload is stripped before merging, and the merge overwrites exactly
the fields the payload provides while every other field of the stored
document is retained unchanged. -/
theorem c7_update_merge_strips_id (s1 s2 : List Question) (q : Question)
    (qid actingUser : Nat) (body : UpdateBody)
    (hs1 : ∀ x ∈ s1, x._id ≠ qid) (hq : q._id = qid) (hown : q.user = actingUser) :
    ∃ m : Question,
      update (s1 ++ q :: s2) qid actingUser body =
        { store := s1 ++ m :: s2,
          res := { status := 200, body := some (Body.question m), ended := true },
          writes := 1 } ∧
      m._id = q._id ∧
      (∀ v, body.user = some v → m.user = v) ∧
      (body.user = none → m.user = q.user) ∧
      (∀ v, body.createdAt = some v → m.createdAt = v) ∧
      (body.createdAt = none → m.createdAt = q.createdAt) ∧
      (∀ v, body.content = some v → m.content = v) ∧
      (body.content = none → m.content = q.content) ∧
      m.answers = q.answers ∧ m.comments = q.comments := by
  refine ⟨mergeQuestion q { body with _id := none },
    update_owner_success s1 s2 q qid actingUser body hs1 hq hown,
    by simp [mergeQuestion], ?_, ?_, ?_, ?_, ?_, ?_, rfl, rfl⟩
  · intro v hv
    simp [mergeQuestion, hv]
  · intro hv
    simp [mergeQuestion, hv]
  · intro v hv
    simp [mergeQuestion, hv]
  · intro hv
    simp [mergeQuestion, hv]
  · intro v hv
    simp [mergeQuestion, hv]
  · intro hv
    simp [mergeQuestion, hv]

/-- C7 witness: the theorem applied to question 1 owned by user 1 and a
payload carrying identifier 99 and new content: the identifier is kept,
the content overwritten, the other fields retained. -/
theorem c7_witness :
    ((sampleQ 1 1 0)._id = 1 ∧ (sampleQ 1 1 0).user = 1) ∧
    (∃ m : Question,
      update [sampleQ 1 1 0] 1 1 ⟨some 99, none, none, some "new"⟩ =
        { store := [m],
          res := { status := 200, body := some (Body.question m), ended := true },
          writes := 1 } ∧
      m._id = (sampleQ 1 1 0)._id ∧
      (∀ v, (⟨some 99, none, none, some "new"⟩ : UpdateBody).user = some v → m.user = v) ∧
      ((⟨some 99, none, none, some "new"⟩ : UpdateBody).user = none → m.user = (sampleQ 1 1 0).user) ∧
      (∀ v, (⟨some 99, none, none, some "new"⟩ : UpdateBody).createdAt = some v → m.createdAt = v) ∧
      ((⟨some 99, none, none, some "new"⟩ : UpdateBody).createdAt = none → m.createdAt = (sampleQ 1 1 0).createdAt) ∧
      (∀ v, (⟨some 99, none, none, some "new"⟩ : UpdateBody).content = some v → m.content = v) ∧
      ((⟨some 99, none, none, some "new"⟩ : UpdateBody).content = none → m.content = (sampleQ 1 1 0).content) ∧
      m.answers = (sampleQ 1 1 0).answers ∧ m.comments = (sampleQ 1 1 0).comments) :=
  ⟨⟨rfl, rfl⟩,
    c7_update_merge_strips_id [] [] (sampleQ 1 1 0) 1 1 ⟨some 99, none, none, some "new"⟩
      (by simp) rfl rfl⟩

/-- C9: the question update strips only `_id`: a client-supplied `user`
field in an update payload is merged into the stored document, so an owner
can reassign the question's owning user via update. -/
theorem c9_update_reassigns_owner (s1 s2 : List Question) (q : Question)
    (qid actingUser newOwner : Nat) (body : UpdateBody)
    (hs1 : ∀ x ∈ s1, x._id ≠ qid) (hq : q._id = qid) (hown : q.user = actingUser)
    (huser : body.user = some newOwner) :
    ∃ m : Question,
      update (s1 ++ q :: s2) qid actingUser body =
        { store := s1 ++ m :: s2,
          res := { status := 200, body := some (Body.question m), ended := true },
          writes := 1 } ∧
      m.user = newOwner ∧ m._id = q._id :=
  ⟨mergeQuestion q { body with _id := none },
    update_owner_success s1 s2 q qid actingUser body hs1 hq hown,
    by simp [mergeQuestion, huser],
    by simp [mergeQuestion]⟩

/-- C9 witness: user 1, the owner of question 1, reassigns it to user 5
through the update payload. -/
theorem c9_witness :
    ((sampleQ 1 1 0).user = 1 ∧
     (⟨none, some 5, none, none⟩ : UpdateBody).user = some 5) ∧
    (∃ m : Question,
      update [sampleQ 1 1 0] 1 1 ⟨none, some 5, none, none⟩ =
        { store := [m],
          res := { status := 200, body := some (Body.question m), ended := true },
          writes := 1 } ∧
      m.user = 5 ∧ m._id = (sampleQ 1 1 0)._id) :=
  ⟨⟨rfl, rfl⟩,
    c9_update_reassigns_owner [] [] (sampleQ 1 1 0) 1 1 5 ⟨none, some 5, none, none⟩
      (by simp) rfl rfl rfl⟩

/-- The `updateAnswerComment` scan skips a prefix of answers whose ids all
differ from the requested one, advancing the positional index. -/
theorem uacLoop_append_skip {qid aid cid actingUser : Nat} {content : String} :
    ∀ (A1 rest : List Answer) (i : Nat) (st : HResult),
      (∀ x ∈ A1, x._id ≠ aid) →
      uacLoop qid aid cid actingUser content (A1 ++ rest) i st =
        uacLoop qid aid cid actingUser content rest (i + A1.length) st
  | [], rest, i, st, _ => by simp
  | x :: xs, rest, i, st, h => by
    have hx : (x._id == aid) = false := by simp [h x (List.mem_cons_self x xs)]
    have e := @uacLoop_append_skip qid aid cid actingUser content xs rest (i + 1) st
      (fun y hy => h y (List.mem_cons_of_mem x hy))
    have harith : i + 1 + xs.length = i + (xs.length + 1) := by omega
    simp [uacLoop, hx, e, harith]

/-- C4: updating a comment nested under a specific answer modifies only the
comment matching both the given comment id and the acting user as owner;
when no comment of that answer matches both (in particular when the id
matches but the owner differs), the document is left unchanged and the
handler takes its 404 path. -/
theorem c4_update_answer_comment_owner_filter (s1 s2 : List Question) (q : Question)
    (qid aid cid actingUser : Nat) (content : String) (a1 a2 : List Answer) (a : Answer)
    (hs1 : ∀ x ∈ s1, x._id ≠ qid) (hs2 : ∀ x ∈ s2, x._id ≠ qid) (hq : q._id = qid)
    (hans : q.answers = a1 ++ a :: a2)
    (ha1 : ∀ x ∈ a1, x._id ≠ aid) (ha : a._id = aid) (ha2 : ∀ x ∈ a2, x._id ≠ aid) :
    (∀ (cpre cpost : List Comment) (c : Comment),
      a.comments = cpre ++ c :: cpost →
      (∀ x ∈ cpre, ¬(x._id = cid ∧ x.user = actingUser)) →
      c._id = cid → c.user = actingUser →
      updateAnswerComment (s1 ++ q :: s2) qid aid cid actingUser content =
        { store := s1 ++ { q with answers := a1 ++ { a with comments := cpre ++ { c with content := content } :: cpost } :: a2 } :: s2,
          res := { status := 200,
                   body := some (Body.question { q with answers := a1 ++ { a with comments := cpre ++ { c with content := content } :: cpost } :: a2 }),
                   ended := true },
          writes := 1 }) ∧
    ((∀ x ∈ a.comments, ¬(x._id = cid ∧ x.user = actingUser)) →
      updateAnswerComment (s1 ++ q :: s2) qid aid cid actingUser content =
        { store := s1 ++ q :: s2,
          res := { status := 200, body := some (Body.num 404), ended := true },
          writes := 1 }) := by
  have hfid : ∀ x ∈ s1, ((fun z : Question => z._id == qid) x) = false :=
    fun x hx => by simp [hs1 x hx]
  have hab : (a._id == aid) = true := by simp [ha]
  have hgetq : q.answers[a1.length]? = some a := by
    rw [hans]
    exact getElem?_middle a1 a2
  have efilt : (s1 ++ q :: s2).filter (fun z => z._id == qid) =
      q :: s2.filter (fun z => z._id == qid) :=
    filter_middle s1 s2 hfid (by simp [hq])
  constructor
  · intro cpre cpost c hcom hcpre hci hcu
    have emap : mapFirst (fun y => y._id == cid && y.user == actingUser)
        (fun y => { y with content := content }) a.comments =
        cpre ++ { c with content := content } :: cpost := by
      rw [hcom]
      exact mapFirst_middle cpre cpost (fun x hx => pair_match_false (hcpre x hx))
        (by simp [hci, hcu])
    have edoc : uacDoc cid actingUser a1.length content q =
        { q with answers := a1 ++ { a with comments := cpre ++ { c with content := content } :: cpost } :: a2 } := by
      simp only [uacDoc]
      rw [hans, modifyIdx_middle a1 a2]
      simp only [emap]
    have hany : a.comments.any (fun y => y._id == cid && y.user == actingUser) = true := by
      rw [hcom]
      simp [hci, hcu]
    have hp1 : ∀ x ∈ s1, uacConditions qid cid actingUser a1.length x = false :=
      fun x hx => by simp [uacConditions, hs1 x hx]
    have hpq : uacConditions qid cid actingUser a1.length q = true := by
      simp [uacConditions, hq, hgetq, hany]
    have e1 : updateFirst (uacConditions qid cid actingUser a1.length)
        (uacDoc cid actingUser a1.length content) (s1 ++ q :: s2) =
        (1, s1 ++ { q with answers := a1 ++ { a with comments := cpre ++ { c with content := content } :: cpost } :: a2 } :: s2) := by
      rw [updateFirst_middle s1 s2 hp1 hpq, edoc]
    have efind : findById (s1 ++ { q with answers := a1 ++ { a with comments := cpre ++ { c with content := content } :: cpost } :: a2 } :: s2) qid =
        some { q with answers := a1 ++ { a with comments := cpre ++ { c with content := content } :: cpost } :: a2 } := by
      simp only [findById]
      exact find?_middle s1 s2 hfid (by simp [hq])
    have eloop : uacLoop qid aid cid actingUser content q.answers 0
        { store := s1 ++ q :: s2, res := rEmpty, writes := 0 } =
        ({ store := s1 ++ { q with answers := a1 ++ { a with comments := cpre ++ { c with content := content } :: cpost } :: a2 } :: s2,
           res := { status := 200,
                    body := some (Body.question { q with answers := a1 ++ { a with comments := cpre ++ { c with content := content } :: cpost } :: a2 }),
                    ended := true },
           writes := 1 }, true) := by
      rw [hans, uacLoop_append_skip a1 (a :: a2) 0 _ ha1]
      simp only [Nat.zero_add, uacLoop, hab, if_true]
      rw [e1]
      simp only [uacLoop_none a2 (a1.length + 1) _ ha2]
      simp [show'_found efind, resJson, resStatus, rEmpty]
    simp only [updateAnswerComment, efilt]
    rw [eloop]
    simp
  · intro hnone
    have hanyf : a.comments.any (fun y => y._id == cid && y.user == actingUser) = false := by
      rw [List.any_eq_false]
      intro y hy
      simp [pair_match_false (hnone y hy)]
    have hall : ∀ x ∈ s1 ++ q :: s2,
        uacConditions qid cid actingUser a1.length x = false := by
      intro x hx
      rcases List.mem_append.mp hx with hx1 | hx2
      · simp [uacConditions, hs1 x hx1]
      · rcases List.mem_cons.mp hx2 with rfl | hx3
        · simp [uacConditions, hgetq, hanyf]
        · simp [uacConditions, hs2 x hx3]
    have e1 : updateFirst (uacConditions qid cid actingUser a1.length)
        (uacDoc cid actingUser a1.length content) (s1 ++ q :: s2) =
        (0, s1 ++ q :: s2) := updateFirst_none' hall _
    have eloop : uacLoop qid aid cid actingUser content q.answers 0
        { store := s1 ++ q :: s2, res := rEmpty, writes := 0 } =
        ({ store := s1 ++ q :: s2,
           res := { status := 200, body := some (Body.num 404), ended := true },
           writes := 1 }, true) := by
      rw [hans, uacLoop_append_skip a1 (a :: a2) 0 _ ha1]
      simp only [Nat.zero_add, uacLoop, hab, if_true]
      rw [e1]
      simp only [uacLoop_none a2 (a1.length + 1) _ ha2]
      simp [resSend, resEnd, rEmpty]
    simp only [updateAnswerComment, efilt]
    rw [eloop]
    simp

/-- A question whose single answer carries a comment owned by user 2, used
as a concrete input. -/
def qW4 : Question :=
  { sampleQ 1 1 0 with answers := [{ sampleA 4 7 with comments := [sampleC 9 2] }] }

/-- C4 witness: comment 9 under answer 4 of question 1 is owned by user 2;
acting user 2 updates it, acting user 3 gets the 404 path with the
document unchanged. -/
theorem c4_witness :
    (qW4._id = 1 ∧ (sampleC 9 2).user = 2) ∧
    (updateAnswerComment [qW4] 1 4 9 2 "w" =
      { store := [{ qW4 with answers := [{ sampleA 4 7 with comments := [{ sampleC 9 2 with content := "w" }] }] }],
        res := { status := 200,
                 body := some (Body.question { qW4 with answers := [{ sampleA 4 7 with comments := [{ sampleC 9 2 with content := "w" }] }] }),
                 ended := true },
        writes := 1 }) ∧
    (updateAnswerComment [qW4] 1 4 9 3 "w" =
      { store := [qW4],
        res := { status := 200, body := some (Body.num 404), ended := true },
        writes := 1 }) :=
  ⟨⟨rfl, rfl⟩,
    (c4_update_answer_comment_owner_filter [] [] qW4 1 4 9 2 "w" []
      [] { sampleA 4 7 with comments := [sampleC 9 2] }
      (by simp) (by simp) rfl rfl (by simp) rfl (by simp)).1
      [] [] (sampleC 9 2) rfl (by simp) rfl rfl,
    (c4_update_answer_comment_owner_filter [] [] qW4 1 4 9 3 "w" []
      [] { sampleA 4 7 with comments := [sampleC 9 2] }
      (by simp) (by simp) rfl rfl (by simp) rfl (by simp)).2
      (by decide)⟩

/-- C8: the list operation returns at most 20 questions, newest first: for
any store with more than 20 questions of pairwise distinct creation times,
the response is a 200 whose body is a 20-element list, strictly descending
in creation time, drawn from the store, and every stored question left out
is older than every listed one. -/
theorem c8_index_top20_desc (store : List Question)
    (hlen : 20 < store.length)
    (hdist : store.Pairwise (fun a b => a.createdAt ≠ b.createdAt)) :
    ∃ L : List Question,
      index store = { status := 200, body := some (Body.questions L), ended := true } ∧
      L.length = 20 ∧
      List.Sorted (fun a b => b.createdAt < a.createdAt) L ∧
      (∀ p ∈ L, p ∈ store) ∧
      (∀ x ∈ store, x ∉ L → ∀ p ∈ L, x.createdAt < p.createdAt) := by
  have hperm : List.Perm (sortByCreatedAtDesc store) store :=
    List.perm_insertionSort newerEq store
  have hsorted : List.Sorted newerEq (sortByCreatedAtDesc store) :=
    List.sorted_insertionSort newerEq store
  have hdistS : (sortByCreatedAtDesc store).Pairwise
      (fun a b => a.createdAt ≠ b.createdAt) :=
    (hperm.pairwise_iff (fun {_ _} h => h.symm)).mpr hdist
  have hstrict : (sortByCreatedAtDesc store).Pairwise
      (fun a b => b.createdAt < a.createdAt) :=
    (hsorted.and hdistS).imp (fun h => lt_of_le_of_ne h.1 (Ne.symm h.2))
  refine ⟨(sortByCreatedAtDesc store).take 20, ?_, ?_, ?_, ?_, ?_⟩
  · simp [index, respondWithResult, resJson, resStatus, rEmpty]
  · have : (sortByCreatedAtDesc store).length = store.length := hperm.length_eq
    simp [List.length_take, this]
    omega
  · exact hstrict.sublist (List.take_sublist 20 _)
  · intro p hp
    exact hperm.mem_iff.mp ((List.take_sublist 20 _).mem hp)
  · intro x hx hnx p hp
    have hxS : x ∈ sortByCreatedAtDesc store := hperm.mem_iff.mpr hx
    have hxD : x ∈ (sortByCreatedAtDesc store).drop 20 := by
      rcases List.mem_append.mp
        ((List.take_append_drop 20 (sortByCreatedAtDesc store)) ▸ hxS) with h | h
      · exact absurd h hnx
      · exact h
    have hsplit := List.pairwise_append.mp
      ((List.take_append_drop 20 (sortByCreatedAtDesc store)).symm ▸ hstrict)
    exact hsplit.2.2 p hp x hxD

/-- A store of 21 questions with distinct creation times, a concrete
input for the listing property. -/
def c8store : List Question := (List.range 21).map (fun n => sampleQ n 0 n)

/-- C8 witness: the theorem applied to the 21-question store. -/
theorem c8_witness :
    (20 < c8store.length ∧
     c8store.Pairwise (fun a b => a.createdAt ≠ b.createdAt)) ∧
    (∃ L : List Question,
      index c8store = { status := 200, body := some (Body.questions L), ended := true } ∧
      L.length = 20 ∧
      List.Sorted (fun a b => b.createdAt < a.createdAt) L ∧
      (∀ p ∈ L, p ∈ c8store) ∧
      (∀ x ∈ c8store, x ∉ L → ∀ p ∈ L, x.createdAt < p.createdAt)) :=
  ⟨⟨by decide, by decide⟩, c8_index_top20_desc c8store (by decide) (by decide)⟩
